import Mathlib

/-
Verification development for svgpath2mpl (svgpath2mpl.py): an SVG path
parser producing a flat (codes, vertices) drawing-instruction stream.

The embedding follows the source file closely:
  - COMMANDS, UPPERCASE, COMMAND_CODES, PARAMS : the constant tables;
  - commandSplit / floatMatch / floatFindAll : the regex-driven tokenizer
    (re.split on the command-letter class, FLOAT_RE.findall on the chunks);
  - pyFloat : evaluation of a numeric token (modelled exactly over the rationals);
  - execCmd / runLoop / parse_path : the command interpreter of _parse_path and
    the accumulation done by parse_path.

Numbers are modelled as rationals.  Python exceptions are modelled by the
PyErr error type of an Except monad; each constructor corresponds to the
Python exception class the source can actually raise at that point.
-/

deriving instance DecidableEq for Except

namespace Svgpath

/-- matplotlib Path vertex codes, as used by COMMAND_CODES in the source. -/
inductive PCode where
  | MOVETO
  | LINETO
  | CURVE3
  | CURVE4
  | CLOSEPOLY
deriving DecidableEq, Repr

/-- Python exception classes that the parser code can raise.  `syntaxError`
is included because the specification speaks of SyntaxError; the source
never raises it. -/
inductive PyErr where
  /-- SyntaxError: mentioned by the specification, never raised by the source. -/
  | syntaxError
  /-- ValueError raised at the "Unallowed implicit command" check; carries the
  position `len(pathdef.split()) - len(elements)` computed by the source. -/
  | valueError (pos : ℤ)
  /-- ValueError raised by `float()` applied to a non-numeric token string. -/
  | valueErrorFloat
  /-- IndexError raised by `list.pop()` on an exhausted token list. -/
  | indexError
  /-- TypeError raised by the Python membership test of None in a string
  (the reflection checks of the S and T branches). -/
  | typeError
  /-- AttributeError raised by `None.real` when Z fires with no subpath start. -/
  | attributeError
deriving DecidableEq, Repr

/-- Addition on the rationals, written through the smart constructor mkRat so
that the kernel can evaluate it on concrete values (the library operations on
Rat are irreducible); proved equal to the library addition below. -/
def qadd (a b : ℚ) : ℚ := mkRat (a.num * b.den + b.num * a.den) (a.den * b.den)

/-- Subtraction on the rationals through mkRat. -/
def qsub (a b : ℚ) : ℚ := mkRat (a.num * b.den - b.num * a.den) (a.den * b.den)

/-- Multiplication on the rationals through mkRat. -/
def qmul (a b : ℚ) : ℚ := mkRat (a.num * b.num) (a.den * b.den)

/-- Inverse on the rationals through divInt. -/
def qinv (a : ℚ) : ℚ := Rat.divInt a.den a.num

/-- Division on the rationals through mkRat. -/
def qdiv (a b : ℚ) : ℚ := qmul a (qinv b)

/-- Negation on the rationals. -/
def qneg (a : ℚ) : ℚ := Rat.neg a

/-- COMMANDS: the set of the twenty command letters MmZzLlHhVvCcSsQqTtAa. -/
def COMMANDS : List Char :=
  ['M', 'm', 'Z', 'z', 'L', 'l', 'H', 'h', 'V', 'v',
   'C', 'c', 'S', 's', 'Q', 'q', 'T', 't', 'A', 'a']

/-- UPPERCASE: the set of the ten uppercase command letters MZLHVCSQTA. -/
def UPPERCASE : List Char :=
  ['M', 'Z', 'L', 'H', 'V', 'C', 'S', 'Q', 'T', 'A']

/-- COMMAND_CODES: per-vertex code tuple for each (uppercased) command letter.
The arc entry is None in the source (arcs get their codes from Path.arc). -/
def COMMAND_CODES (c : Char) : List PCode :=
  if c = 'M' then [.MOVETO]
  else if c = 'L' then [.LINETO]
  else if c = 'H' then [.LINETO]
  else if c = 'V' then [.LINETO]
  else if c = 'Q' then [.CURVE3, .CURVE3]
  else if c = 'T' then [.CURVE3, .CURVE3]
  else if c = 'C' then [.CURVE4, .CURVE4, .CURVE4]
  else if c = 'S' then [.CURVE4, .CURVE4, .CURVE4]
  else if c = 'Z' then [.CLOSEPOLY]
  else []

/-- PARAMS: the arity table of the source.  Note that this table is defined
but never read by _parse_path; in particular PARAMS T = 4 although the T
branch of _parse_path pops only 2 numbers. -/
def PARAMS (c : Char) : ℕ :=
  if c = 'M' then 2
  else if c = 'L' then 2
  else if c = 'H' then 1
  else if c = 'V' then 1
  else if c = 'Q' then 4
  else if c = 'T' then 4
  else if c = 'C' then 6
  else if c = 'S' then 6
  else if c = 'Z' then 0
  else if c = 'A' then 7
  else 0

/-- Number of numeric tokens each branch of _parse_path actually pops from
the element list (M: one point, C: three points, A: one point, three scalars
and one point, and so on).  This is the effective arity of the interpreter;
it agrees with PARAMS except at T, where the source pops only one point. -/
def NUM_ARGS (c : Char) : ℕ :=
  if c = 'M' then 2
  else if c = 'L' then 2
  else if c = 'H' then 1
  else if c = 'V' then 1
  else if c = 'Q' then 4
  else if c = 'T' then 2
  else if c = 'C' then 6
  else if c = 'S' then 4
  else if c = 'Z' then 0
  else if c = 'A' then 7
  else 0

/-- re.split("([MmZzLlHhVvCcSsQqTtAa])", s): the list of chunks interleaved
with the single-letter matches, empty chunks included. -/
def commandSplit : List Char → List (List Char)
  | [] => [[]]
  | c :: cs =>
    if c ∈ COMMANDS then
      [] :: [c] :: commandSplit cs
    else
      match commandSplit cs with
      | [] => [[c]]
      | p :: ps => (c :: p) :: ps

/-- Greedy match of the mantissa part [0-9]*\.?[0-9]+ of FLOAT_RE at the head
of the input, with the backtracking Python re performs: a dot is only kept
when at least one digit follows it. -/
def matchMantissa (cs : List Char) : Option (List Char × List Char) :=
  let s1 := cs.span Char.isDigit
  match s1.2 with
  | '.' :: r2 =>
    let s2 := r2.span Char.isDigit
    if s2.1 = [] then
      if s1.1 = [] then none else some (s1.1, s1.2)
    else
      some (s1.1 ++ '.' :: s2.1, s2.2)
  | _ => if s1.1 = [] then none else some (s1.1, s1.2)

/-- Greedy match of the optional exponent (?:[eE][-+]?[0-9]+)? of FLOAT_RE:
consumed only when the marker is followed by an optional sign and at least
one digit. -/
def matchExp : List Char → Option (List Char × List Char)
  | [] => none
  | e :: rest =>
    if e = 'e' ∨ e = 'E' then
      match rest with
      | [] => none
      | s :: r2 =>
        if s = '+' ∨ s = '-' then
          let d := r2.span Char.isDigit
          if d.1 = [] then none else some (e :: s :: d.1, d.2)
        else
          let d := rest.span Char.isDigit
          if d.1 = [] then none else some (e :: d.1, d.2)
    else none

/-- Match of FLOAT_RE = [-+]?[0-9]*\.?[0-9]+(?:[eE][-+]?[0-9]+)? anchored at
the head of the input; returns the matched characters and the rest. -/
def floatMatch : List Char → Option (List Char × List Char)
  | [] => none
  | c :: rest =>
    if c = '+' ∨ c = '-' then
      match matchMantissa rest with
      | none => none
      | some (m, r) =>
        match matchExp r with
        | some (me, r2) => some (c :: (m ++ me), r2)
        | none => some (c :: m, r)
    else
      match matchMantissa (c :: rest) with
      | none => none
      | some (m, r) =>
        match matchExp r with
        | some (me, r2) => some (m ++ me, r2)
        | none => some (m, r)

/-- FLOAT_RE.findall: scan left to right, emit each leftmost match and resume
after it, advance one character where no match starts.  Fuelled by the input
length, which suffices because every match is nonempty. -/
def floatFindAllF : ℕ → List Char → List (List Char)
  | 0, _ => []
  | _, [] => []
  | fuel + 1, c :: cs =>
    match floatMatch (c :: cs) with
    | some (m, rest) => m :: floatFindAllF fuel rest
    | none => floatFindAllF fuel cs

/-- FLOAT_RE.findall over a chunk. -/
def floatFindAll (cs : List Char) : List (List Char) :=
  floatFindAllF cs.length cs

/-- Model of _tokenize_path: for each piece of the command split, yield the piece when
it is a command letter, then yield every float match inside it.  Everything
else in a chunk is silently skipped by findall. -/
def tokenize_path (s : String) : List (List Char) :=
  ((commandSplit s.toList).map (fun x =>
    (if x ∈ COMMANDS.map (fun c => [c]) then [x] else []) ++ floatFindAll x)).flatten

/-- Value of a digit string. -/
def digitsVal (ds : List Char) : ℕ :=
  ds.foldl (fun a c => 10 * a + (c.toNat - 48)) 0

/-- Powers of ten over the rationals, written recursively so that the kernel
can evaluate them. -/
def pow10 : ℕ → ℚ
  | 0 => 1
  | n + 1 => qmul 10 (pow10 n)

/-- Signed power of ten. -/
def qpow10 (z : ℤ) : ℚ :=
  if 0 ≤ z then pow10 z.toNat else qdiv 1 (pow10 (-z).toNat)

/-- Mantissa value of a float token (exact, over the rationals). -/
def pyFloatMantissa (cs : List Char) : ℚ × List Char :=
  let s1 := cs.span Char.isDigit
  match s1.2 with
  | '.' :: r2 =>
    let s2 := r2.span Char.isDigit
    (qadd (digitsVal s1.1 : ℚ) (qdiv (digitsVal s2.1 : ℚ) (pow10 s2.1.length)), s2.2)
  | _ => ((digitsVal s1.1 : ℚ), s1.2)

/-- Exponent value of the trailing [eE][-+]?[0-9]+ part of a float token. -/
def pyFloatExp : List Char → ℤ
  | [] => 0
  | e :: rest =>
    if e = 'e' ∨ e = 'E' then
      match rest with
      | '-' :: r2 => -(digitsVal (r2.takeWhile Char.isDigit) : ℤ)
      | '+' :: r2 => (digitsVal (r2.takeWhile Char.isDigit) : ℤ)
      | _ => (digitsVal (rest.takeWhile Char.isDigit) : ℤ)
    else 0

/-- Unsigned float token value. -/
def pyFloatAbs (cs : List Char) : ℚ :=
  let m := pyFloatMantissa cs
  qmul m.1 (qpow10 (pyFloatExp m.2))

/-- float(token): exact rational value of a token produced by FLOAT_RE. -/
def pyFloat (cs : List Char) : ℚ :=
  match cs with
  | '-' :: r => qneg (pyFloatAbs r)
  | '+' :: r => pyFloatAbs r
  | _ => pyFloatAbs cs

/-- A token as the interpreter sees it: command letters stay letters, every
other token string is a float literal whose value float() computes.  (In the
source tokens stay strings and float() runs at pop time; every FLOAT_RE match
converts without error, so pre-classifying is observationally identical, and
popping a command letter where a number is expected is the float() failure
`valueErrorFloat`.) -/
inductive Tok where
  | cmd (c : Char)
  | num (q : ℚ)
deriving DecidableEq

/-- Token stream of a path definition string, with numeric tokens evaluated. -/
def toToks (s : String) : List Tok :=
  (tokenize_path s).map fun x =>
    match x with
    | [c] => if c ∈ COMMANDS then Tok.cmd c else Tok.num (pyFloat x)
    | _ => Tok.num (pyFloat x)

/-- A point, as the pair (real, imag) of the complex numbers the source uses. -/
abbrev Point : Type := ℚ × ℚ

/-- Componentwise sum, modelling complex addition in expressions such as
`pos += current_pos`. -/
def padd (a b : Point) : Point := (qadd a.1 b.1, qadd a.2 b.2)

/-- The reflected control point `current_pos + current_pos - last_control`
used by the S and T branches. -/
def reflect (pos ctrl : Point) : Point :=
  (qsub (qadd pos.1 pos.1) ctrl.1, qsub (qadd pos.2 pos.2) ctrl.2)

/-- One emitted instruction: the per-vertex code tuple and the vertex list of
a single yield of _parse_path. -/
abbrev Instr : Type := List PCode × List Point

/-- The arc construction of the A branch between reading its parameters and
the sweep-dependent slicing: endpoint_to_center followed by Path.arc on the
ordered angles and the affine transform (scale, translate, rotate).  Path.arc
and the transforms live in matplotlib, outside this repository, and
endpoint_to_center is irrational-valued, so this stage is abstracted as a
function from (current_pos, radius, rotation, large, sweep, end) to the
transformed codes and vertices arrays. -/
abbrev ArcGen : Type := Point → Point → ℚ → ℚ → ℚ → Point → List PCode × List Point

/-- An arc stage producing nothing; used to instantiate theorems on paths
that contain no A command. -/
def arcGen0 : ArcGen := fun _ _ _ _ _ _ => ([], [])

/-- Interpreter state persisting across loop iterations of _parse_path:
current_pos, start_pos, the active command (uppercased), the absolute flag of
the last explicit letter, and the control2 / control locals used by S / T
reflection.  The control locals are initialised arbitrarily; the source reads
them only after a C or S (respectively Q or T) branch has assigned them. -/
structure PState where
  pos : Point
  start : Option Point
  cmd : Option Char
  absolute : Bool
  control2 : Point
  control : Point
deriving DecidableEq

/-- float(elements.pop()): IndexError on an exhausted list, ValueError when
the popped token is a command letter. -/
def popF : List Tok → Except PyErr (ℚ × List Tok)
  | [] => .error .indexError
  | .cmd _ :: _ => .error .valueErrorFloat
  | .num q :: ts => .ok (q, ts)

/-- Model of _next_pos: float(elements.pop()) + float(elements.pop())*1j. -/
def next_pos (ts : List Tok) : Except PyErr (Point × List Tok) :=
  match popF ts with
  | .error e => .error e
  | .ok (x, ts1) =>
    match popF ts1 with
    | .error e => .error e
    | .ok (y, ts2) => .ok ((x, y), ts2)

/-- One command dispatch of _parse_path (the elif chain), for the already
uppercased active command.  Returns the instructions this iteration yields,
the updated state and the remaining tokens. -/
def execCmd (arc : ArcGen) (command : Char) (lastCmd : Option Char) (s : PState)
    (ts : List Tok) : Except PyErr (List Instr × PState × List Tok) :=
  if command = 'M' then
    match next_pos ts with
    | .error e => .error e
    | .ok (p, ts) =>
      .ok ([(COMMAND_CODES 'M', [if s.absolute then p else padd s.pos p])],
           { s with pos := if s.absolute then p else padd s.pos p,
                    start := some (if s.absolute then p else padd s.pos p),
                    cmd := some 'L' }, ts)
  else if command = 'Z' then
    match s.start with
    | none => .error .attributeError
    | some st =>
      .ok ((if s.pos ≠ st then [(COMMAND_CODES 'L', [st])] else []) ++
             [(COMMAND_CODES 'Z', [st])],
           { s with pos := st, start := none, cmd := none }, ts)
  else if command = 'L' then
    match next_pos ts with
    | .error e => .error e
    | .ok (p, ts) =>
      .ok ([(COMMAND_CODES 'L', [if s.absolute then p else padd p s.pos])],
           { s with pos := if s.absolute then p else padd p s.pos }, ts)
  else if command = 'H' then
    match popF ts with
    | .error e => .error e
    | .ok (x, ts) =>
      .ok ([(COMMAND_CODES 'H',
             [if s.absolute then (x, s.pos.2) else (qadd x s.pos.1, s.pos.2)])],
           { s with pos := if s.absolute then (x, s.pos.2)
                           else (qadd x s.pos.1, s.pos.2) }, ts)
  else if command = 'V' then
    match popF ts with
    | .error e => .error e
    | .ok (y, ts) =>
      .ok ([(COMMAND_CODES 'V',
             [if s.absolute then (s.pos.1, y) else (s.pos.1, qadd y s.pos.2)])],
           { s with pos := if s.absolute then (s.pos.1, y)
                           else (s.pos.1, qadd y s.pos.2) }, ts)
  else if command = 'C' then
    match next_pos ts with
    | .error e => .error e
    | .ok (c1, ts) =>
      match next_pos ts with
      | .error e => .error e
      | .ok (c2, ts) =>
        match next_pos ts with
        | .error e => .error e
        | .ok (e, ts) =>
          .ok ([(COMMAND_CODES 'C',
                 [if s.absolute then c1 else padd c1 s.pos,
                  if s.absolute then c2 else padd c2 s.pos,
                  if s.absolute then e else padd e s.pos])],
               { s with pos := if s.absolute then e else padd e s.pos,
                        control2 := if s.absolute then c2 else padd c2 s.pos }, ts)
  else if command = 'S' then
    match lastCmd with
    | none => .error .typeError
    | some lc =>
      match next_pos ts with
      | .error e => .error e
      | .ok (c2, ts) =>
        match next_pos ts with
        | .error e => .error e
        | .ok (e, ts) =>
          .ok ([(COMMAND_CODES 'S',
                 [if lc = 'C' ∨ lc = 'S' then reflect s.pos s.control2 else s.pos,
                  if s.absolute then c2 else padd c2 s.pos,
                  if s.absolute then e else padd e s.pos])],
               { s with pos := if s.absolute then e else padd e s.pos,
                        control2 := if s.absolute then c2 else padd c2 s.pos }, ts)
  else if command = 'Q' then
    match next_pos ts with
    | .error e => .error e
    | .ok (c, ts) =>
      match next_pos ts with
      | .error e => .error e
      | .ok (e, ts) =>
        .ok ([(COMMAND_CODES 'Q',
               [if s.absolute then c else padd c s.pos,
                if s.absolute then e else padd e s.pos])],
             { s with pos := if s.absolute then e else padd e s.pos,
                      control := if s.absolute then c else padd c s.pos }, ts)
  else if command = 'T' then
    match lastCmd with
    | none => .error .typeError
    | some lc =>
      match next_pos ts with
      | .error e => .error e
      | .ok (e, ts) =>
        .ok ([(COMMAND_CODES 'T',
               [if lc = 'Q' ∨ lc = 'T' then reflect s.pos s.control else s.pos,
                if s.absolute then e else padd e s.pos])],
             { s with pos := if s.absolute then e else padd e s.pos,
                      control := if lc = 'Q' ∨ lc = 'T' then reflect s.pos s.control
                                 else s.pos }, ts)
  else if command = 'A' then
    match next_pos ts with
    | .error e => .error e
    | .ok (radius, ts) =>
      match popF ts with
      | .error e => .error e
      | .ok (rotation, ts) =>
        match popF ts with
        | .error e => .error e
        | .ok (large, ts) =>
          match popF ts with
          | .error e => .error e
          | .ok (sweep, ts) =>
            match next_pos ts with
            | .error e => .error e
            | .ok (e, ts) =>
              .ok ([if sweep ≠ 0 then
                      ((arc s.pos radius rotation large sweep
                          (if s.absolute then e else padd e s.pos)).1.drop 1,
                       (arc s.pos radius rotation large sweep
                          (if s.absolute then e else padd e s.pos)).2.drop 1)
                    else arc s.pos radius rotation large sweep
                      (if s.absolute then e else padd e s.pos)],
                   { s with pos := if s.absolute then e else padd e s.pos }, ts)
  else
    .ok ([], s, ts)

/-- The while loop of _parse_path.  `splitLen` is len(pathdef.split()), used
only in the ValueError message position.  Fuelled by the token count: every
reachable iteration consumes at least one token, so the fuel never runs out
when the loop starts with fuel = length of the token list. -/
def runLoop (arc : ArcGen) (splitLen : ℤ) : ℕ → List Tok → PState →
    Except PyErr (List Instr)
  | _, [], _ => .ok []
  | 0, _ :: _, _ => .ok []
  | fuel + 1, t :: ts, s =>
    match t with
    | .cmd c =>
      let lastCmd := s.cmd
      let s := { s with absolute := c ∈ UPPERCASE, cmd := some c.toUpper }
      match execCmd arc c.toUpper lastCmd s ts with
      | .error e => .error e
      | .ok (instrs, s2, ts2) =>
        match runLoop arc splitLen fuel ts2 s2 with
        | .error e => .error e
        | .ok rest => .ok (instrs ++ rest)
    | .num _ =>
      match s.cmd with
      | none => .error (.valueError (splitLen - (ts.length + 1)))
      | some c =>
        match execCmd arc c (some c) s (t :: ts) with
        | .error e => .error e
        | .ok (instrs, s2, ts2) =>
          match runLoop arc splitLen fuel ts2 s2 with
          | .error e => .error e
          | .ok rest => .ok (instrs ++ rest)

/-- len(pathdef.split()): the number of maximal runs of non-whitespace. -/
def pyIsSpace (c : Char) : Bool :=
  c = ' ' ∨ c = '\t' ∨ c = '\n' ∨ c = '\r' ∨ c = '\x0b' ∨ c = '\x0c'

/-- Word counter behind pySplitLen. -/
def wordCountAux : Bool → List Char → ℕ
  | _, [] => 0
  | inWord, c :: cs =>
    if pyIsSpace c then wordCountAux false cs
    else (if inWord then 0 else 1) + wordCountAux true cs

/-- len(pathdef.split()) as an integer (the position arithmetic of the
ValueError message is Python int arithmetic and can go negative). -/
def pySplitLen (s : String) : ℤ :=
  (wordCountAux false s.toList : ℤ)

/-- parse_path: tokenize, run the interpreter loop from the initial state
(current_pos defaults to the origin), and concatenate the yielded codes and
vertices into the two parallel arrays handed to matplotlib Path. -/
def parse_path (arc : ArcGen) (pathdef : String)
    (current_pos : Point := (0, 0)) : Except PyErr (List PCode × List Point) :=
  let toks := toToks pathdef
  let s : PState := { pos := current_pos, start := none, cmd := none,
                      absolute := false, control2 := (0, 0), control := (0, 0) }
  match runLoop arc (pySplitLen pathdef) toks.length toks s with
  | .error e => .error e
  | .ok instrs => .ok ((instrs.map Prod.fst).flatten, (instrs.map Prod.snd).flatten)

/-- np.clip(x, lo, hi): values below lo become lo, values above hi become hi. -/
def npClip (x lo hi : ℚ) : ℚ :=
  if x < lo then lo else if hi < x then hi else x

/-- The value the source feeds to the first inverse cosine of
endpoint_to_center (the start angle theta1): `d = p / n`, where p and n are
the intermediates `p = ux` and `n = sqrt(ux*ux + uy*uy)` computed just above.
In the source the clip is commented out on this line:
`d = p / n #np.clip(p / n, -1, 1)`. -/
def theta1_acos_input (p n : ℚ) : ℚ := qdiv p n

/-- The value the source feeds to the second inverse cosine of
endpoint_to_center (the angular delta): `d = np.clip(p / n, -1, 1)`, where p
and n are the dot product and norm product computed just above. -/
def delta_acos_input (p n : ℚ) : ℚ := npClip (qdiv p n) (-1) 1

/-- Result of one command dispatch with the stored absolute flag erased: the
yielded instructions, the geometric state (current position, subpath start,
active command, the two reflection controls) and the remaining tokens. -/
def execOut (r : Except PyErr (List Instr × PState × List Tok)) :
    Except PyErr (List Instr × (Point × Option Point × Option Char × Point × Point) × List Tok) :=
  match r with
  | .error e => .error e
  | .ok (is, s, ts) => .ok (is, (s.pos, s.start, s.cmd, s.control2, s.control), ts)

/-! Helper lemmas: the kernel-evaluable rational operations agree with the
library operations, so symbolic reasoning can use ordinary field algebra. -/

theorem qadd_eq (a b : ℚ) : qadd a b = a + b := (Rat.add_def' a b).symm

theorem qsub_eq (a b : ℚ) : qsub a b = a - b := (Rat.sub_def' a b).symm

theorem qmul_eq (a b : ℚ) : qmul a b = a * b := by
  rw [qmul, Rat.mul_def, Rat.normalize_eq_mkRat]

theorem qinv_eq (a : ℚ) : qinv a = a⁻¹ := (Rat.inv_def a).symm

theorem qdiv_eq (a b : ℚ) : qdiv a b = a / b := by
  rw [qdiv, qmul_eq, qinv_eq, div_eq_mul_inv]

theorem qneg_eq (a : ℚ) : qneg a = -a := rfl

theorem padd_eq (a b : Point) : padd a b = (a.1 + b.1, a.2 + b.2) := by
  rw [padd, qadd_eq, qadd_eq]

theorem reflect_eq (p c : Point) : reflect p c = (p.1 + p.1 - c.1, p.2 + p.2 - c.2) := by
  rw [reflect, qadd_eq, qadd_eq, qsub_eq, qsub_eq]

/-- Helper: span of a digit-free list takes nothing. -/
theorem span_nodigit {cs : List Char} (h : ∀ c ∈ cs, c.isDigit = false) :
    cs.span Char.isDigit = ([], cs) := by
  cases cs with
  | nil => rfl
  | cons c r =>
    simp [List.span_eq_take_drop, List.takeWhile_cons, List.dropWhile_cons,
      h c (List.mem_cons_self c r)]

/-- Helper: no mantissa match starts in a digit-free list. -/
theorem matchMantissa_none {cs : List Char} (h : ∀ c ∈ cs, c.isDigit = false) :
    matchMantissa cs = none := by
  unfold matchMantissa
  rw [span_nodigit h]
  cases cs with
  | nil => rfl
  | cons c r =>
    by_cases hc : c = '.'
    · subst hc
      have hr : ∀ d ∈ r, d.isDigit = false := fun d hd => h d (List.mem_cons_of_mem _ hd)
      simp [span_nodigit hr]
      intro hx
      exact hr _ (List.getElem_mem hx)
    · simp only []
      split
      · next heq =>
        rw [List.cons.injEq] at heq
        exact absurd heq.1 hc
      · rfl

/-- Helper: no float match starts in a digit-free list. -/
theorem floatMatch_none {cs : List Char} (h : ∀ c ∈ cs, c.isDigit = false) :
    floatMatch cs = none := by
  cases cs with
  | nil => rfl
  | cons c r =>
    have hr : ∀ d ∈ r, d.isDigit = false := fun d hd => h d (List.mem_cons_of_mem _ hd)
    unfold floatMatch
    by_cases hs : c = '+' ∨ c = '-'
    · simp [hs, matchMantissa_none hr]
    · simp [hs, matchMantissa_none h]

/-- Helper: findall over a digit-free list yields nothing. -/
theorem floatFindAllF_nil : ∀ (fuel : ℕ) (cs : List Char),
    (∀ c ∈ cs, c.isDigit = false) → floatFindAllF fuel cs = [] := by
  intro fuel
  induction fuel with
  | zero => intro cs _; cases cs <;> rfl
  | succ n ih =>
    intro cs h
    cases cs with
    | nil => rfl
    | cons c r =>
      have hr : ∀ d ∈ r, d.isDigit = false := fun d hd => h d (List.mem_cons_of_mem _ hd)
      simp [floatFindAllF, floatMatch_none h, ih r hr]

/-- Helper: the command split of a letter-free list is one chunk. -/
theorem commandSplit_nocmd : ∀ {cs : List Char},
    (∀ c ∈ cs, c ∉ COMMANDS) → commandSplit cs = [cs] := by
  intro cs
  induction cs with
  | nil => intro _; rfl
  | cons c r ih =>
    intro h
    have hr : ∀ d ∈ r, d ∉ COMMANDS := fun d hd => h d (List.mem_cons_of_mem _ hd)
    simp [commandSplit, h c (List.mem_cons_self c r), ih hr]

/-- Helper: a string with no command letter and no digit tokenizes to
nothing at all: its content is silently discarded. -/
theorem toToks_nil {s : String} (h : ∀ c ∈ s.toList, c ∉ COMMANDS ∧ c.isDigit = false) :
    toToks s = [] := by
  unfold toToks tokenize_path
  rw [commandSplit_nocmd (fun c hc => (h c hc).1)]
  have hnc : s.toList ∉ COMMANDS.map (fun c => [c]) := by
    intro hmem
    rcases List.mem_map.1 hmem with ⟨c, hc, heq⟩
    have : c ∈ s.toList := by rw [← heq]; exact List.mem_cons_self c []
    exact (h c this).1 hc
  simp [hnc, floatFindAll, floatFindAllF_nil _ _ (fun c hc => (h c hc).2)]
  refine ⟨fun x hx heq => ?_, floatFindAllF_nil _ _ (fun c hc => (h c hc).2)⟩
  have hx2 : x ∈ s.toList := by
    have : s.toList = [x] := heq.symm
    rw [this]
    exact List.mem_cons_self x []
  exact (h x hx2).1 hx

/-- C2 counterexample: an input containing the garbage substring "@!" - a
substring matching neither a command letter nor the number grammar, and not
whitespace or comma - does not make tokenization or parse fail; the garbage
is silently dropped and parse succeeds. -/
theorem claim2_counterexample :
    tokenize_path "M 1 2 @! 3 4" = tokenize_path "M 1 2 3 4"
    ∧ parse_path arcGen0 "M 1 2 @! 3 4" =
        .ok ([PCode.MOVETO, PCode.LINETO], [(1, 2), (3, 4)]) :=
  ⟨by rfl, by decide⟩

/-- C2 amended: a substring matching neither a command letter nor the number
grammar is silently discarded by the tokenizer, exactly like whitespace; no
error of any kind is raised for it.  In particular a string with no command
letter and no digit contributes no tokens, and parse of a garbage-bearing
path equals parse of the path with the garbage removed. -/
theorem claim2_garbage_silently_discarded :
    (∀ s : String, (∀ c ∈ s.toList, c ∉ COMMANDS ∧ c.isDigit = false) → toToks s = [])
    ∧ parse_path arcGen0 "M 1 2 @! 3 4" = parse_path arcGen0 "M 1 2 3 4" :=
  ⟨fun _ h => toToks_nil h, by decide⟩

/-- C2 witness: the amended claim evaluated at the digit-free, letter-free
string "@! ,x" - it tokenizes to nothing. -/
theorem claim2_witness : toToks "@! ,x" = [] :=
  claim2_garbage_silently_discarded.1 "@! ,x" (by decide)

/-- C3 counterexample: a path beginning with a bare number makes parse fail
with a ValueError (the "Unallowed implicit command" branch), not with a
SyntaxError as the claim states. -/
theorem claim3_counterexample :
    parse_path arcGen0 "5 3" = .error (.valueError 0)
    ∧ PyErr.valueError 0 ≠ PyErr.syntaxError :=
  ⟨by decide, by decide⟩

/-- C3 amended: a numeric token with no active command - a path beginning
with a bare number, or any numeric token right after a Z close - makes parse
fail with a ValueError carrying the position
len(pathdef.split()) - len(elements), and no instructions are returned. -/
theorem claim3_value_error_on_implicit_command :
    (∀ (arc : ArcGen) (splitLen : ℤ) (fuel : ℕ) (s : PState) (q : ℚ) (ts : List Tok),
        s.cmd = none →
        runLoop arc splitLen (fuel + 1) (.num q :: ts) s =
          .error (.valueError (splitLen - (ts.length + 1))))
    ∧ (∀ (arc : ArcGen) (pd : String) (cur : Point) (q : ℚ) (ts : List Tok),
        toToks pd = .num q :: ts →
        parse_path arc pd cur = .error (.valueError (pySplitLen pd - (ts.length + 1))))
    ∧ parse_path arcGen0 "M 0 0 Z 5 5" = .error (.valueError 4) := by
  have h1 : ∀ (arc : ArcGen) (splitLen : ℤ) (fuel : ℕ) (s : PState) (q : ℚ)
      (ts : List Tok), s.cmd = none →
      runLoop arc splitLen (fuel + 1) (.num q :: ts) s =
        .error (.valueError (splitLen - (ts.length + 1))) := by
    intro arc splitLen fuel s q ts hcmd
    simp [runLoop, hcmd]
  refine ⟨h1, ?_, by decide⟩
  intro arc pd cur q ts htoks
  unfold parse_path
  rw [htoks]
  simp only [List.length_cons]
  rw [h1 arc (pySplitLen pd) ts.length _ q ts rfl]

/-- C3 witness: the loop-level statement instantiated at a concrete state
and token list. -/
theorem claim3_witness :
    runLoop arcGen0 7 1 [Tok.num 3]
        { pos := (0, 0), start := none, cmd := none, absolute := false,
          control2 := (0, 0), control := (0, 0) } =
      .error (.valueError 6) :=
  claim3_value_error_on_implicit_command.1 arcGen0 7 0 _ 3 [] rfl

/-- C4: when the previous command exists but is not C or S (respectively not
Q or T), the S (respectively T) branch does use the current point as the
reflected control and emits normally; but when there is no previous command
at all - S or T opening the path, or right after a Z close - the source
raises a TypeError from evaluating None in the string membership test,
instead of using the current point as its own comment promises. -/
theorem claim4_no_reflection_cases :
    (∀ (arc : ArcGen) (lc : Char), ¬(lc = 'C' ∨ lc = 'S') →
      ∀ (s : PState) (x2 y2 x3 y3 : ℚ) (rest : List Tok),
        execCmd arc 'S' (some lc) s
            (.num x2 :: .num y2 :: .num x3 :: .num y3 :: rest) =
          .ok ([(COMMAND_CODES 'S',
                 [s.pos,
                  if s.absolute then (x2, y2) else padd (x2, y2) s.pos,
                  if s.absolute then (x3, y3) else padd (x3, y3) s.pos])],
               { s with pos := if s.absolute then (x3, y3) else padd (x3, y3) s.pos,
                        control2 := if s.absolute then (x2, y2)
                                    else padd (x2, y2) s.pos },
               rest))
    ∧ (∀ (arc : ArcGen) (lc : Char), ¬(lc = 'Q' ∨ lc = 'T') →
      ∀ (s : PState) (x y : ℚ) (rest : List Tok),
        execCmd arc 'T' (some lc) s (.num x :: .num y :: rest) =
          .ok ([(COMMAND_CODES 'T',
                 [s.pos, if s.absolute then (x, y) else padd (x, y) s.pos])],
               { s with pos := if s.absolute then (x, y) else padd (x, y) s.pos,
                        control := s.pos },
               rest))
    ∧ parse_path arcGen0 "S 1 2 3 4" = .error .typeError
    ∧ parse_path arcGen0 "T 1 2" = .error .typeError
    ∧ parse_path arcGen0 "M 0 0 Z S 1 2 3 4" = .error .typeError := by
  refine ⟨?_, ?_, by decide, by decide, by decide⟩
  · intro arc lc hlc s x2 y2 x3 y3 rest
    simp [execCmd, next_pos, popF, hlc]
  · intro arc lc hlc s x y rest
    simp [execCmd, next_pos, popF, hlc]

/-- C4 witness: the S statement instantiated after an L command: the control
point equals the current point (1, 1). -/
theorem claim4_witness :
    execCmd arcGen0 'S' (some 'L')
        { pos := (1, 1), start := none, cmd := some 'S', absolute := true,
          control2 := (9, 9), control := (0, 0) }
        [Tok.num 2, Tok.num 3, Tok.num 4, Tok.num 5] =
      .ok ([(COMMAND_CODES 'S', [(1, 1), (2, 3), (4, 5)])],
           { pos := (4, 5), start := none, cmd := some 'S', absolute := true,
             control2 := (2, 3), control := (0, 0) }, []) :=
  claim4_no_reflection_cases.1 arcGen0 'L' (by decide)
    { pos := (1, 1), start := none, cmd := some 'S', absolute := true,
      control2 := (9, 9), control := (0, 0) } 2 3 4 5 []

/-- C5: parsing "M 100 100 L 300 100 L 200 300 z" yields exactly the five
instructions MOVE, LINE, LINE, synthesized closing LINE, CLOSE; and in
general a Z with the current point different from the subpath start emits
the closing LINE then CLOSE at the subpath start, restores the current point
to the subpath start, and clears both the subpath start and the active
command. -/
theorem claim5_close_path :
    parse_path arcGen0 "M 100 100 L 300 100 L 200 300 z" =
      .ok ([PCode.MOVETO, PCode.LINETO, PCode.LINETO, PCode.LINETO, PCode.CLOSEPOLY],
           [(100, 100), (300, 100), (200, 300), (100, 100), (100, 100)])
    ∧ ∀ (arc : ArcGen) (lc : Option Char) (s : PState) (p : Point) (ts : List Tok),
        s.start = some p → s.pos ≠ p →
        execCmd arc 'Z' lc s ts =
          .ok ([(COMMAND_CODES 'L', [p]), (COMMAND_CODES 'Z', [p])],
               { s with pos := p, start := none, cmd := none }, ts) := by
  refine ⟨by decide, ?_⟩
  intro arc lc s p ts hs hne
  simp [execCmd, hs, hne]

/-- C5 witness: the Z statement instantiated at a state whose current point
(200, 300) differs from the subpath start (100, 100). -/
theorem claim5_witness :
    execCmd arcGen0 'Z' (some 'L')
        { pos := (200, 300), start := some (100, 100), cmd := some 'L',
          absolute := false, control2 := (0, 0), control := (0, 0) } [] =
      .ok ([(COMMAND_CODES 'L', [(100, 100)]), (COMMAND_CODES 'Z', [(100, 100)])],
           { pos := (100, 100), start := none, cmd := none, absolute := false,
             control2 := (0, 0), control := (0, 0) }, []) :=
  claim5_close_path.2 arcGen0 (some 'L')
    { pos := (200, 300), start := some (100, 100), cmd := some 'L',
      absolute := false, control2 := (0, 0), control := (0, 0) }
    (100, 100) [] rfl (by decide)

/-- C1: the documentation of parse_path promises that a supplied starting
point makes even an uppercase initial M relative, but the code treats
uppercase M as absolute: parse of "M 10 10" from (5, 5) yields
MOVE[(10, 10)], not the promised MOVE[(15, 15)]; the lowercase form does
honour the starting point, and the default start is the origin. -/
theorem claim1_uppercase_initial_moveto_is_absolute :
    parse_path arcGen0 "M 10 10" (5, 5) = .ok ([PCode.MOVETO], [(10, 10)])
    ∧ parse_path arcGen0 "m 10 10" (5, 5) = .ok ([PCode.MOVETO], [(15, 15)])
    ∧ (((10 : ℚ), (10 : ℚ)) : Point) ≠ ((15, 15) : Point) :=
  ⟨by decide, by decide, by decide⟩

/-- C6: the first inverse-cosine argument of endpoint_to_center (producing
theta1) is not clamped - at the overshoot value 1.0000000000000002 cited by
the source comment it stays above 1, outside the acos domain - while the
second inverse-cosine argument (producing the angular delta) is clamped
to 1. -/
theorem claim6_theta1_acos_input_unclamped :
    theta1_acos_input (mkRat 10000000000000002 10000000000000000) 1 =
      mkRat 5000000000000001 5000000000000000
    ∧ ¬(theta1_acos_input (mkRat 10000000000000002 10000000000000000) 1 ≤ 1)
    ∧ delta_acos_input (mkRat 10000000000000002 10000000000000000) 1 = 1 :=
  ⟨by decide, by decide, by decide⟩

/-- C7: for an A command, the codes and vertices generated by the arc stage are
yielded with their first entry dropped exactly when the sweep flag is
truthy (nonzero), and unchanged when the sweep flag is zero. -/
theorem claim7_sweep_drops_first_arc_vertex (arc : ArcGen) (lc : Option Char)
    (s : PState) (rx ry rot lg sw ex ey : ℚ) (rest : List Tok) :
    execCmd arc 'A' lc s
        (.num rx :: .num ry :: .num rot :: .num lg :: .num sw ::
          .num ex :: .num ey :: rest) =
      .ok ([if sw ≠ 0 then
              ((arc s.pos (rx, ry) rot lg sw
                  (if s.absolute then (ex, ey) else padd (ex, ey) s.pos)).1.drop 1,
               (arc s.pos (rx, ry) rot lg sw
                  (if s.absolute then (ex, ey) else padd (ex, ey) s.pos)).2.drop 1)
            else arc s.pos (rx, ry) rot lg sw
              (if s.absolute then (ex, ey) else padd (ex, ey) s.pos)],
           { s with pos := if s.absolute then (ex, ey) else padd (ex, ey) s.pos },
           rest) := by
  rfl

/-- Helper: adding back the subtracted baseline on the right. -/
theorem padd_sub_self (x y : ℚ) (p : Point) : padd (x - p.1, y - p.2) p = (x, y) := by
  rw [padd_eq]
  simp

/-- Helper: adding back the subtracted baseline on the left. -/
theorem padd_self_sub (p : Point) (x y : ℚ) : padd p (x - p.1, y - p.2) = (x, y) := by
  rw [padd_eq]
  simp

/-- Helper: scalar version of the cancellation. -/
theorem qadd_sub_self (x a : ℚ) : qadd (x - a) a = x := by
  rw [qadd_eq]
  simp

/-- C8: for every command letter, executing it with the absolute flag (the
uppercase form) equals executing it with the relative flag (the lowercase
form) on deltas computed from the current point - the relative coordinates
are resolved by adding the current point and handled identically from then
on.  The outputs are compared through execOut, which keeps the instructions,
the geometric state and the leftover tokens (the stored letter-case flag
itself of course differs). -/
theorem claim8_relative_equals_absolute (arc : ArcGen) (lc : Option Char) (s : PState) :
    (∀ (x y : ℚ) (rest : List Tok),
      execOut (execCmd arc 'M' lc { s with absolute := true }
          (.num x :: .num y :: rest)) =
        execOut (execCmd arc 'M' lc { s with absolute := false }
          (.num (x - s.pos.1) :: .num (y - s.pos.2) :: rest)))
    ∧ (∀ (x y : ℚ) (rest : List Tok),
      execOut (execCmd arc 'L' lc { s with absolute := true }
          (.num x :: .num y :: rest)) =
        execOut (execCmd arc 'L' lc { s with absolute := false }
          (.num (x - s.pos.1) :: .num (y - s.pos.2) :: rest)))
    ∧ (∀ (x : ℚ) (rest : List Tok),
      execOut (execCmd arc 'H' lc { s with absolute := true } (.num x :: rest)) =
        execOut (execCmd arc 'H' lc { s with absolute := false }
          (.num (x - s.pos.1) :: rest)))
    ∧ (∀ (y : ℚ) (rest : List Tok),
      execOut (execCmd arc 'V' lc { s with absolute := true } (.num y :: rest)) =
        execOut (execCmd arc 'V' lc { s with absolute := false }
          (.num (y - s.pos.2) :: rest)))
    ∧ (∀ (x1 y1 x2 y2 x3 y3 : ℚ) (rest : List Tok),
      execOut (execCmd arc 'C' lc { s with absolute := true }
          (.num x1 :: .num y1 :: .num x2 :: .num y2 :: .num x3 :: .num y3 :: rest)) =
        execOut (execCmd arc 'C' lc { s with absolute := false }
          (.num (x1 - s.pos.1) :: .num (y1 - s.pos.2) :: .num (x2 - s.pos.1) ::
            .num (y2 - s.pos.2) :: .num (x3 - s.pos.1) :: .num (y3 - s.pos.2) :: rest)))
    ∧ (∀ (x2 y2 x3 y3 : ℚ) (rest : List Tok),
      execOut (execCmd arc 'S' lc { s with absolute := true }
          (.num x2 :: .num y2 :: .num x3 :: .num y3 :: rest)) =
        execOut (execCmd arc 'S' lc { s with absolute := false }
          (.num (x2 - s.pos.1) :: .num (y2 - s.pos.2) :: .num (x3 - s.pos.1) ::
            .num (y3 - s.pos.2) :: rest)))
    ∧ (∀ (x1 y1 x2 y2 : ℚ) (rest : List Tok),
      execOut (execCmd arc 'Q' lc { s with absolute := true }
          (.num x1 :: .num y1 :: .num x2 :: .num y2 :: rest)) =
        execOut (execCmd arc 'Q' lc { s with absolute := false }
          (.num (x1 - s.pos.1) :: .num (y1 - s.pos.2) :: .num (x2 - s.pos.1) ::
            .num (y2 - s.pos.2) :: rest)))
    ∧ (∀ (x y : ℚ) (rest : List Tok),
      execOut (execCmd arc 'T' lc { s with absolute := true }
          (.num x :: .num y :: rest)) =
        execOut (execCmd arc 'T' lc { s with absolute := false }
          (.num (x - s.pos.1) :: .num (y - s.pos.2) :: rest)))
    ∧ (∀ (rx ry rot lg sw ex ey : ℚ) (rest : List Tok),
      execOut (execCmd arc 'A' lc { s with absolute := true }
          (.num rx :: .num ry :: .num rot :: .num lg :: .num sw ::
            .num ex :: .num ey :: rest)) =
        execOut (execCmd arc 'A' lc { s with absolute := false }
          (.num rx :: .num ry :: .num rot :: .num lg :: .num sw ::
            .num (ex - s.pos.1) :: .num (ey - s.pos.2) :: rest)))
    ∧ (∀ (ts : List Tok),
      execOut (execCmd arc 'Z' lc { s with absolute := true } ts) =
        execOut (execCmd arc 'Z' lc { s with absolute := false } ts)) := by
  refine ⟨?_, ?_, ?_, ?_, ?_, ?_, ?_, ?_, ?_, ?_⟩
  · intro x y rest
    simp [execCmd, next_pos, popF, execOut, padd_self_sub]
  · intro x y rest
    simp [execCmd, next_pos, popF, execOut, padd_sub_self]
  · intro x rest
    simp [execCmd, next_pos, popF, execOut, qadd_sub_self]
  · intro y rest
    simp [execCmd, next_pos, popF, execOut, qadd_sub_self]
  · intro x1 y1 x2 y2 x3 y3 rest
    simp [execCmd, next_pos, popF, execOut, padd_sub_self]
  · intro x2 y2 x3 y3 rest
    cases lc with
    | none => simp [execCmd, next_pos, popF, execOut]
    | some c => simp [execCmd, next_pos, popF, execOut, padd_sub_self]
  · intro x1 y1 x2 y2 rest
    simp [execCmd, next_pos, popF, execOut, padd_sub_self]
  · intro x y rest
    cases lc with
    | none => simp [execCmd, next_pos, popF, execOut]
    | some c => simp [execCmd, next_pos, popF, execOut, padd_sub_self]
  · intro rx ry rot lg sw ex ey rest
    simp [execCmd, next_pos, popF, execOut, padd_sub_self]
  · intro ts
    cases hs : s.start with
    | none => simp [execCmd, execOut, hs]
    | some st => simp [execCmd, execOut, hs]

/-- Helper: every instruction a single command dispatch yields has as many
codes as vertices, provided the arc stage does. -/
theorem execCmd_lengths (arc : ArcGen)
    (hb : ∀ p r rot lg sw e,
      (arc p r rot lg sw e).1.length = (arc p r rot lg sw e).2.length)
    (c : Char) (lc : Option Char) (s : PState) (ts : List Tok)
    {is : List Instr} {s2 : PState} {ts2 : List Tok}
    (h : execCmd arc c lc s ts = .ok (is, s2, ts2)) :
    ∀ i ∈ is, i.1.length = i.2.length := by
  by_cases hM : c = 'M'
  case pos =>
    simp [execCmd, hM] at h
    repeat' split at h
    all_goals
      first
        | exact Except.noConfusion h
        | (cases h
           intro i hi
           simp only [List.singleton_append, List.cons_append, List.nil_append,
             List.mem_cons, List.mem_singleton, List.not_mem_nil, or_false] at hi
           first
             | (obtain rfl := hi
                simp [COMMAND_CODES, List.length_drop, hb])
             | (obtain rfl | rfl := hi <;>
                simp [COMMAND_CODES, List.length_drop, hb]))
  by_cases hZ : c = 'Z'
  case pos =>
    simp [execCmd, hZ] at h
    repeat' split at h
    all_goals
      first
        | exact Except.noConfusion h
        | (cases h
           intro i hi
           simp only [List.singleton_append, List.cons_append, List.nil_append,
             List.mem_cons, List.mem_singleton, List.not_mem_nil, or_false] at hi
           first
             | (obtain rfl := hi
                simp [COMMAND_CODES, List.length_drop, hb])
             | (obtain rfl | rfl := hi <;>
                simp [COMMAND_CODES, List.length_drop, hb]))
  by_cases hL : c = 'L'
  case pos =>
    simp [execCmd, hL] at h
    repeat' split at h
    all_goals
      first
        | exact Except.noConfusion h
        | (cases h
           intro i hi
           simp only [List.singleton_append, List.cons_append, List.nil_append,
             List.mem_cons, List.mem_singleton, List.not_mem_nil, or_false] at hi
           first
             | (obtain rfl := hi
                simp [COMMAND_CODES, List.length_drop, hb])
             | (obtain rfl | rfl := hi <;>
                simp [COMMAND_CODES, List.length_drop, hb]))
  by_cases hH : c = 'H'
  case pos =>
    simp [execCmd, hH] at h
    repeat' split at h
    all_goals
      first
        | exact Except.noConfusion h
        | (cases h
           intro i hi
           simp only [List.singleton_append, List.cons_append, List.nil_append,
             List.mem_cons, List.mem_singleton, List.not_mem_nil, or_false] at hi
           first
             | (obtain rfl := hi
                simp [COMMAND_CODES, List.length_drop, hb])
             | (obtain rfl | rfl := hi <;>
                simp [COMMAND_CODES, List.length_drop, hb]))
  by_cases hV : c = 'V'
  case pos =>
    simp [execCmd, hV] at h
    repeat' split at h
    all_goals
      first
        | exact Except.noConfusion h
        | (cases h
           intro i hi
           simp only [List.singleton_append, List.cons_append, List.nil_append,
             List.mem_cons, List.mem_singleton, List.not_mem_nil, or_false] at hi
           first
             | (obtain rfl := hi
                simp [COMMAND_CODES, List.length_drop, hb])
             | (obtain rfl | rfl := hi <;>
                simp [COMMAND_CODES, List.length_drop, hb]))
  by_cases hC : c = 'C'
  case pos =>
    simp [execCmd, hC] at h
    repeat' split at h
    all_goals
      first
        | exact Except.noConfusion h
        | (cases h
           intro i hi
           simp only [List.singleton_append, List.cons_append, List.nil_append,
             List.mem_cons, List.mem_singleton, List.not_mem_nil, or_false] at hi
           first
             | (obtain rfl := hi
                simp [COMMAND_CODES, List.length_drop, hb])
             | (obtain rfl | rfl := hi <;>
                simp [COMMAND_CODES, List.length_drop, hb]))
  by_cases hS : c = 'S'
  case pos =>
    simp [execCmd, hS] at h
    repeat' split at h
    all_goals
      first
        | exact Except.noConfusion h
        | (cases h
           intro i hi
           simp only [List.singleton_append, List.cons_append, List.nil_append,
             List.mem_cons, List.mem_singleton, List.not_mem_nil, or_false] at hi
           first
             | (obtain rfl := hi
                simp [COMMAND_CODES, List.length_drop, hb])
             | (obtain rfl | rfl := hi <;>
                simp [COMMAND_CODES, List.length_drop, hb]))
  by_cases hQ : c = 'Q'
  case pos =>
    simp [execCmd, hQ] at h
    repeat' split at h
    all_goals
      first
        | exact Except.noConfusion h
        | (cases h
           intro i hi
           simp only [List.singleton_append, List.cons_append, List.nil_append,
             List.mem_cons, List.mem_singleton, List.not_mem_nil, or_false] at hi
           first
             | (obtain rfl := hi
                simp [COMMAND_CODES, List.length_drop, hb])
             | (obtain rfl | rfl := hi <;>
                simp [COMMAND_CODES, List.length_drop, hb]))
  by_cases hT : c = 'T'
  case pos =>
    simp [execCmd, hT] at h
    repeat' split at h
    all_goals
      first
        | exact Except.noConfusion h
        | (cases h
           intro i hi
           simp only [List.singleton_append, List.cons_append, List.nil_append,
             List.mem_cons, List.mem_singleton, List.not_mem_nil, or_false] at hi
           first
             | (obtain rfl := hi
                simp [COMMAND_CODES, List.length_drop, hb])
             | (obtain rfl | rfl := hi <;>
                simp [COMMAND_CODES, List.length_drop, hb]))
  by_cases hA : c = 'A'
  case pos =>
    simp [execCmd, hA] at h
    repeat' split at h
    all_goals
      first
        | exact Except.noConfusion h
        | (cases h
           intro i hi
           simp only [List.singleton_append, List.cons_append, List.nil_append,
             List.mem_cons, List.mem_singleton, List.not_mem_nil, or_false] at hi
           first
             | (obtain rfl := hi
                simp [COMMAND_CODES, List.length_drop, hb])
             | (obtain rfl | rfl := hi <;>
                simp [COMMAND_CODES, List.length_drop, hb]))
  case neg =>
    simp [execCmd, hM, hZ, hL, hH, hV, hC, hS, hQ, hT, hA] at h
    obtain ⟨h1, -, -⟩ := h
    subst h1
    intro i hi
    cases hi

/-- Helper: every instruction the interpreter loop yields has as many codes
as vertices, provided the arc stage does. -/
theorem runLoop_lengths (arc : ArcGen)
    (hb : ∀ p r rot lg sw e,
      (arc p r rot lg sw e).1.length = (arc p r rot lg sw e).2.length)
    (sl : ℤ) :
    ∀ (fuel : ℕ) (ts : List Tok) (s : PState) (is : List Instr),
      runLoop arc sl fuel ts s = .ok is → ∀ i ∈ is, i.1.length = i.2.length := by
  intro fuel
  induction fuel with
  | zero =>
    intro ts s is h
    cases ts with
    | nil => simp [runLoop] at h; subst h; intro i hi; cases hi
    | cons t ts => simp [runLoop] at h; subst h; intro i hi; cases hi
  | succ n ih =>
    intro ts s is h
    cases ts with
    | nil => simp [runLoop] at h; subst h; intro i hi; cases hi
    | cons t ts =>
      cases t with
      | cmd c =>
        simp only [runLoop] at h
        split at h
        · cases h
        · next is2 s2 ts2 he =>
          split at h
          · cases h
          · next rest hr =>
            simp only [Except.ok.injEq] at h
            subst h
            intro i hi
            rcases List.mem_append.1 hi with hi2 | hi2
            · exact execCmd_lengths arc hb _ _ _ _ he i hi2
            · exact ih ts2 s2 rest hr i hi2
      | num q =>
        simp only [runLoop] at h
        split at h
        · cases h
        · next c hc =>
          split at h
          · cases h
          · next is2 s2 ts2 he =>
            split at h
            · cases h
            · next rest hr =>
              simp only [Except.ok.injEq] at h
              subst h
              intro i hi
              rcases List.mem_append.1 hi with hi2 | hi2
              · exact execCmd_lengths arc hb _ _ _ _ he i hi2
              · exact ih ts2 s2 rest hr i hi2

/-- Helper: flattening balanced instructions gives parallel arrays. -/
theorem flatten_lengths : ∀ (l : List Instr),
    (∀ i ∈ l, i.1.length = i.2.length) →
    ((l.map Prod.fst).flatten).length = ((l.map Prod.snd).flatten).length := by
  intro l
  induction l with
  | nil => intro _; rfl
  | cons a l ih =>
    intro h
    simp only [List.map_cons, List.flatten_cons, List.length_append]
    rw [h a (List.mem_cons_self a l), ih (fun i hi => h i (List.mem_cons_of_mem a hi))]

/-- C9: whenever parse succeeds, the final opcode array and vertex array have
the same length - every yielded instruction carries exactly one vertex per
code (MOVE and LINE and CLOSE one each, CURVE3 two, CURVE4 three, per the
COMMAND_CODES tuples) - provided the abstract arc stage also produces
parallel arrays, as matplotlib Path.arc does. -/
theorem claim9_codes_match_vertices (arc : ArcGen)
    (hb : ∀ p r rot lg sw e,
      (arc p r rot lg sw e).1.length = (arc p r rot lg sw e).2.length)
    (pd : String) (cur : Point) (res : List PCode × List Point)
    (h : parse_path arc pd cur = .ok res) : res.1.length = res.2.length := by
  simp only [parse_path] at h
  split at h
  · cases h
  · next instrs heq =>
    simp only [Except.ok.injEq] at h
    subst h
    exact flatten_lengths instrs (runLoop_lengths arc hb _ _ _ _ _ heq)

/-- C9 witness: the arity invariant applied to a successful concrete parse
with the trivial arc stage. -/
theorem claim9_witness :
    ([PCode.MOVETO] : List PCode).length = ([((10 : ℚ), (10 : ℚ))] : List Point).length :=
  claim9_codes_match_vertices arcGen0 (fun _ _ _ _ _ _ => rfl) "M 10 10" (0, 0)
    ([PCode.MOVETO], [(10, 10)]) (by decide)

/-- C10 counterexample: "S 1" has its final command followed by fewer
numeric tokens than the command needs, yet parse fails with a TypeError (the
S reflection check on a missing previous command fires before any pop), not
with the IndexError the claim states. -/
theorem claim10_counterexample :
    parse_path arcGen0 "S 1" = .error .typeError
    ∧ PyErr.typeError ≠ PyErr.indexError :=
  ⟨by decide, by decide⟩

/-- C10 amended: when a command is executed on fewer numeric tokens than the
number its branch pops (NUM_ARGS), and the token list ends there, the pop on
the exhausted list raises IndexError - except that an S or T with no
previous command at all raises TypeError from the reflection check before
any pop.  For S and T the statement therefore assumes some previous command;
nothing is emitted, the prior instructions being discarded with the raised
error. -/
theorem claim10_short_arguments_index_error :
    (∀ (arc : ArcGen) (lc : Option Char) (s : PState) (ns : List ℚ),
        ns.length < NUM_ARGS 'M' →
        execCmd arc 'M' lc s (ns.map Tok.num) = .error .indexError)
    ∧ (∀ (arc : ArcGen) (lc : Option Char) (s : PState) (ns : List ℚ),
        ns.length < NUM_ARGS 'L' →
        execCmd arc 'L' lc s (ns.map Tok.num) = .error .indexError)
    ∧ (∀ (arc : ArcGen) (lc : Option Char) (s : PState) (ns : List ℚ),
        ns.length < NUM_ARGS 'H' →
        execCmd arc 'H' lc s (ns.map Tok.num) = .error .indexError)
    ∧ (∀ (arc : ArcGen) (lc : Option Char) (s : PState) (ns : List ℚ),
        ns.length < NUM_ARGS 'V' →
        execCmd arc 'V' lc s (ns.map Tok.num) = .error .indexError)
    ∧ (∀ (arc : ArcGen) (lc : Option Char) (s : PState) (ns : List ℚ),
        ns.length < NUM_ARGS 'C' →
        execCmd arc 'C' lc s (ns.map Tok.num) = .error .indexError)
    ∧ (∀ (arc : ArcGen) (lc : Char) (s : PState) (ns : List ℚ),
        ns.length < NUM_ARGS 'S' →
        execCmd arc 'S' (some lc) s (ns.map Tok.num) = .error .indexError)
    ∧ (∀ (arc : ArcGen) (lc : Option Char) (s : PState) (ns : List ℚ),
        ns.length < NUM_ARGS 'Q' →
        execCmd arc 'Q' lc s (ns.map Tok.num) = .error .indexError)
    ∧ (∀ (arc : ArcGen) (lc : Char) (s : PState) (ns : List ℚ),
        ns.length < NUM_ARGS 'T' →
        execCmd arc 'T' (some lc) s (ns.map Tok.num) = .error .indexError)
    ∧ (∀ (arc : ArcGen) (lc : Option Char) (s : PState) (ns : List ℚ),
        ns.length < NUM_ARGS 'A' →
        execCmd arc 'A' lc s (ns.map Tok.num) = .error .indexError)
    ∧ parse_path arcGen0 "M 100" = .error .indexError
    ∧ parse_path arcGen0 "C 1 2 3 4" = .error .indexError := by
  refine ⟨?_, ?_, ?_, ?_, ?_, ?_, ?_, ?_, ?_, by decide, by decide⟩
  · intro arc lc s ns h
    rcases ns with _ | ⟨a, _ | ⟨b, rest⟩⟩
    · rfl
    · rfl
    · simp [NUM_ARGS] at h
      try omega
  · intro arc lc s ns h
    rcases ns with _ | ⟨a, _ | ⟨b, rest⟩⟩
    · rfl
    · rfl
    · simp [NUM_ARGS] at h
      try omega
  · intro arc lc s ns h
    rcases ns with _ | ⟨a, rest⟩
    · rfl
    · simp [NUM_ARGS] at h
      try omega
  · intro arc lc s ns h
    rcases ns with _ | ⟨a, rest⟩
    · rfl
    · simp [NUM_ARGS] at h
      try omega
  · intro arc lc s ns h
    rcases ns with _ | ⟨a, _ | ⟨b, _ | ⟨d, _ | ⟨e, _ | ⟨f, _ | ⟨g, rest⟩⟩⟩⟩⟩⟩
    · rfl
    · rfl
    · rfl
    · rfl
    · rfl
    · rfl
    · simp [NUM_ARGS] at h
      try omega
  · intro arc lc s ns h
    rcases ns with _ | ⟨a, _ | ⟨b, _ | ⟨d, _ | ⟨e, rest⟩⟩⟩⟩
    · rfl
    · rfl
    · rfl
    · rfl
    · simp [NUM_ARGS] at h
      try omega
  · intro arc lc s ns h
    rcases ns with _ | ⟨a, _ | ⟨b, _ | ⟨d, _ | ⟨e, rest⟩⟩⟩⟩
    · rfl
    · rfl
    · rfl
    · rfl
    · simp [NUM_ARGS] at h
      try omega
  · intro arc lc s ns h
    rcases ns with _ | ⟨a, _ | ⟨b, rest⟩⟩
    · rfl
    · rfl
    · simp [NUM_ARGS] at h
      try omega
  · intro arc lc s ns h
    rcases ns with _ | ⟨a, _ | ⟨b, _ | ⟨d, _ | ⟨e, _ | ⟨f, _ | ⟨g, _ | ⟨j, rest⟩⟩⟩⟩⟩⟩⟩
    · rfl
    · rfl
    · rfl
    · rfl
    · rfl
    · rfl
    · rfl
    · simp [NUM_ARGS] at h
      try omega

/-- C10 witness: the M statement instantiated at one numeric token. -/
theorem claim10_witness :
    execCmd arcGen0 'M' none
        { pos := (0, 0), start := none, cmd := some 'M', absolute := true,
          control2 := (0, 0), control := (0, 0) }
        [Tok.num 100] = .error .indexError :=
  claim10_short_arguments_index_error.1 arcGen0 none
    { pos := (0, 0), start := none, cmd := some 'M', absolute := true,
      control2 := (0, 0), control := (0, 0) } [100] (by decide)

end Svgpath
